import Mathlib

/-!
Shallow embedding of the permission-evaluation core of the charlotte
repository (Go).  The embedded functions follow:

* `internal/model/permission.go` — role/operation constants and entity shapes;
* `UnifiedPermissionDAO` (simplified role system): `GetUserRole`,
  `CheckPermission`, `InitializeDefaultPermissions`, `SetUserRole`,
  `GrantTemporaryRole`, `RevokeRole`, `AddRolePermission`,
  `checkPermissionExists`, `containsOperation`;
* `SimplifiedPermissionService`: `CheckPermission`, `SetUserRole`,
  `AddRolePermission`, `isValidRole`, `checkGuestPermission`;
* `PermissionService` (multi-table tag system): `CheckPermission`,
  `hasBasePermission`, `checkPermissions`, `matchPermission`,
  `matchPermissionFromGroup`, `checkResourceScope`, `getAllowedOperations`,
  `removeDuplicates`, `getUserGroupPermissions`, `getUserSpecialPermissions`;
* `UserPermissionDAO.GetActiveUserPermissions`, `GrantPermission`,
  `RevokePermission`; `UserGroupMemberDAO.GetUserGroups`;
  `UserGroupPermissionDAO.GetGroupPermissions`.

Database tables are modelled as Lean lists ordered by primary key
(insertion order); gorm `First` is `List.find?`, `Find` with a filter is
`List.filter`.  Timestamps are `Nat`; Go's zero `time.Time` is `0` (the
columns are non-nullable `time.Time`, so the SQL `expired_at IS NULL` in
`GetActiveUserPermissions` never matches and only `expired_at > now`
remains).  Soft deletion (gorm `DeletedAt`) is a `deleted` flag filtered
out by every read, on the one table a claim soft-deletes from
(`user_permissions`).
-/

namespace Charlotte

/-- Split a character list at every occurrence of the separator, like
Go's `strings.Split` with a one-character separator (structural
recursion so that proofs can evaluate it). -/
def splitAux (sep : Char) : List Char → List Char → List String
  | [], acc => [String.mk acc.reverse]
  | c :: cs, acc =>
      if c == sep then String.mk acc.reverse :: splitAux sep cs []
      else splitAux sep cs (c :: acc)

/-- Behavior of `strings.Split(s, ",")`. -/
def splitOnComma (s : String) : List String :=
  splitAux ',' s.data []

/-- ASCII whitespace, the characters `strings.TrimSpace` strips from the
operation names occurring here. -/
def isSpaceChar (c : Char) : Bool :=
  c == ' ' || c == '\t' || c == '\n' || c == '\r'

/-- Behavior of `strings.TrimSpace`: drop leading and trailing
whitespace. -/
def trimSpace (s : String) : String :=
  String.mk ((s.data.dropWhile isSpaceChar).reverse.dropWhile isSpaceChar).reverse

/-- Operation-set membership test, `containsOperation` (identical in
`UnifiedPermissionDAO`, `PermissionService` and `UserPermissionDAO`):
the literal `"all"` matches everything, otherwise the comma-joined string
is split and each piece is trimmed and compared. -/
def containsOperation (operations targetOp : String) : Bool :=
  if operations == "all" then true
  else (splitOnComma operations).any (fun op => trimSpace op == targetOp)

/-- Role registry check, `SimplifiedPermissionService.isValidRole`:
membership in the fixed list superadmin/admin/vip/user/guest. -/
def isValidRole (role : String) : Bool :=
  role == "superadmin" || role == "admin" || role == "vip" ||
    role == "user" || role == "guest"

/-- Row of the `user_roles` table (`UserRole` model in the unified DAO).
`expiredAt = 0` models Go's zero `time.Time` (no expiration recorded). -/
structure UserRoleRow where
  userId : Nat
  role : String
  isActive : Bool
  expiredAt : Nat
deriving Repr, DecidableEq

/-- Row of the `role_permissions` table (`RolePermission` model). -/
structure RolePermissionRow where
  role : String
  resourceType : String
  operations : String
  scope : String
deriving Repr, DecidableEq

/-- A record of the `users` table as consumed by the permission services:
`Status` (1 = active), `Role`, `IsSuperAdmin`. -/
structure User where
  id : Nat
  status : Nat
  role : String
  isSuperAdmin : Bool
deriving Repr, DecidableEq

/-- `UnifiedPermissionDAO.GetUserRole`: first active `user_roles` row of
the user (gorm `First` = first by primary key), defaulting to `"guest"`
when none exists.  The query filters only `user_id` and `is_active`;
`expired_at` is not consulted. -/
def getUserRole (roles : List UserRoleRow) (userId : Nat) : String :=
  match roles.find? (fun r => r.userId == userId && r.isActive) with
  | some r => r.role
  | none => "guest"

/-- `UnifiedPermissionDAO.CheckPermission`: resolve the role; superadmin
short-circuits to allow; otherwise scan rows matching
`(role = r AND resource_type = rt) OR (role = r AND resource_type = '*')`
for one whose operation set contains the operation. -/
def checkPermissionUnified (roles : List UserRoleRow) (perms : List RolePermissionRow)
    (userId : Nat) (resourceType operation : String) : Bool :=
  let role := getUserRole roles userId
  if role == "superadmin" then true
  else
    (perms.filter (fun p =>
        p.role == role && (p.resourceType == resourceType || p.resourceType == "*"))).any
      (fun p => containsOperation p.operations operation)

/-- The fixed default seed table of `InitializeDefaultPermissions`
(`model.PermissionRead = "read"`, `model.PermissionAll = "all"`). -/
def defaultPermissions : List RolePermissionRow :=
  [ ⟨"superadmin", "*", "all", "all"⟩,
    ⟨"admin", "user", "read,write,create", "all"⟩,
    ⟨"admin", "content", "read,write,create", "all"⟩,
    ⟨"admin", "system", "read,write", "all"⟩,
    ⟨"vip", "user", "read", "own"⟩,
    ⟨"vip", "content", "read", "all"⟩,
    ⟨"user", "user", "read", "own"⟩,
    ⟨"user", "content", "read", "own"⟩,
    ⟨"guest", "content", "read", "public"⟩ ]

/-- `UnifiedPermissionDAO.checkPermissionExists`: count of rows with the
given role and resource type is positive. -/
def checkPermissionExists (perms : List RolePermissionRow)
    (role resourceType : String) : Bool :=
  perms.any (fun p => p.role == role && p.resourceType == resourceType)

/-- Loop body of `InitializeDefaultPermissions`: insert the default entry
unless a row with the same (role, resourceType) pair already exists. -/
def seedStep (acc : List RolePermissionRow) (p : RolePermissionRow) : List RolePermissionRow :=
  if checkPermissionExists acc p.role p.resourceType then acc else acc ++ [p]

/-- `UnifiedPermissionDAO.InitializeDefaultPermissions`: fold `seedStep`
over the fixed default list. -/
def initDefaultPermissions (perms : List RolePermissionRow) : List RolePermissionRow :=
  defaultPermissions.foldl seedStep perms

/-- gorm `Create` on `user_roles`.  The `UserRole` model declares
`UserID uint` with gorm tag `not null;uniqueIndex`, so the insert fails
with a duplicate-key error whenever any row for that user already exists;
on failure the table is unchanged. -/
def createUserRole (roles : List UserRoleRow) (r : UserRoleRow) :
    Except String (List UserRoleRow) :=
  if roles.any (fun x => x.userId == r.userId) then
    Except.error "duplicate key value violates unique index on user id"
  else Except.ok (roles ++ [r])

/-- `UnifiedPermissionDAO.SetUserRole`: if an active row exists for the
user, update its `role` column in place (the update targets every row
matching `user_id = ? AND is_active = true`); otherwise create a fresh
active row with zero expiration. -/
def setUserRoleDao (roles : List UserRoleRow) (userId : Nat) (role : String) :
    Except String (List UserRoleRow) :=
  match roles.find? (fun r => r.userId == userId && r.isActive) with
  | none => createUserRole roles ⟨userId, role, true, 0⟩
  | some _ =>
      Except.ok (roles.map (fun r =>
        if r.userId == userId && r.isActive then { r with role := role } else r))

/-- `UnifiedPermissionDAO.GrantTemporaryRole`: unconditionally create an
active row with `expired_at = now + duration`.  No role validation is
performed here and no caller wraps this in one. -/
def grantTemporaryRole (roles : List UserRoleRow) (userId : Nat) (role : String)
    (now duration : Nat) : Except String (List UserRoleRow) :=
  createUserRole roles ⟨userId, role, true, now + duration⟩

/-- `UnifiedPermissionDAO.RevokeRole`: set `is_active = false` on every
row of the user. -/
def revokeRole (roles : List UserRoleRow) (userId : Nat) : List UserRoleRow :=
  roles.map (fun r => if r.userId == userId then { r with isActive := false } else r)

/-- `UnifiedPermissionDAO.AddRolePermission`: plain insert, no
deduplication and no constraint on the `role_permissions` table. -/
def addRolePermissionDao (perms : List RolePermissionRow)
    (role resourceType operations scope : String) : List RolePermissionRow :=
  perms ++ [⟨role, resourceType, operations, scope⟩]

/-- Result shape of `SimplifiedPermissionService.CheckPermission`. -/
structure SimpleCheckResult where
  hasPermission : Bool
  reason : String
  userRole : String
deriving Repr, DecidableEq

/-- `SimplifiedPermissionService.checkGuestPermission`: guests may only
read content. -/
def checkGuestPermission (resourceType operation : String) : Bool :=
  resourceType == "content" && operation == "read"

/-- `SimplifiedPermissionService.CheckPermission`: a missing user is
handled as a guest via `checkGuestPermission`; a disabled user is denied;
otherwise the decision is delegated to the unified DAO and the resolved
role attached. -/
def checkPermissionSimplified (users : List User) (roles : List UserRoleRow)
    (perms : List RolePermissionRow) (userId : Nat) (resourceType operation : String) :
    SimpleCheckResult :=
  match users.find? (fun u => u.id == userId) with
  | none => ⟨checkGuestPermission resourceType operation, "用户不存在，按游客权限处理", "guest"⟩
  | some user =>
      if user.status != 1 then ⟨false, "用户已被禁用", user.role⟩
      else
        let hasPermission := checkPermissionUnified roles perms userId resourceType operation
        let userRole := getUserRole roles userId
        if hasPermission then ⟨true, "权限验证通过", userRole⟩
        else ⟨false, "权限不足", userRole⟩

/-- `SimplifiedPermissionService.SetUserRole`: reject roles outside the
registry, then delegate to the DAO. -/
def setUserRoleService (roles : List UserRoleRow) (userId : Nat) (role : String) :
    Except String (List UserRoleRow) :=
  if !isValidRole role then Except.error ("无效的用户角色: " ++ role)
  else setUserRoleDao roles userId role

/-- `SimplifiedPermissionService.AddRolePermission`: reject roles outside
the registry, then delegate to the DAO. -/
def addRolePermissionService (perms : List RolePermissionRow)
    (role resourceType operations scope : String) : Except String (List RolePermissionRow) :=
  if !isValidRole role then Except.error ("无效的用户角色: " ++ role)
  else Except.ok (addRolePermissionDao perms role resourceType operations scope)

/-- Row of the `user_permissions` overlay table (`UserPermission` model):
per-user special grant/revoke entries.  `isGrant = false` is documented in
the model as a revocation; `deleted` is the gorm soft-delete flag. -/
structure UserPermissionRow where
  userId : Nat
  permissionTagId : Nat
  operations : String
  resourceType : String
  resourceScope : String
  isGrant : Bool
  expiredAt : Nat
  deleted : Bool
deriving Repr, DecidableEq

/-- Row of the `user_group_members` table. -/
structure UserGroupMemberRow where
  userId : Nat
  userGroupId : Nat
  status : Nat
deriving Repr, DecidableEq

/-- Row of the `user_group_permissions` table. -/
structure UserGroupPermissionRow where
  userGroupId : Nat
  permissionTagId : Nat
  operations : String
  resourceType : String
  resourceScope : String
deriving Repr, DecidableEq

/-- `UserPermissionDAO.GetActiveUserPermissions`: rows of the user with
`is_grant = true` and `expired_at > now` (the `OR expired_at IS NULL`
disjunct never fires because the column is a non-nullable `time.Time`),
excluding soft-deleted rows.  Entries with `is_grant = false` are
filtered out here and therefore never reach the evaluator. -/
def getActiveUserPermissions (uperms : List UserPermissionRow) (now userId : Nat) :
    List UserPermissionRow :=
  uperms.filter (fun p =>
    !p.deleted && p.userId == userId && p.isGrant && decide (p.expiredAt > now))

/-- `UserGroupMemberDAO.GetUserGroups`: membership rows of the user with
`status = 1`. -/
def getUserGroups (members : List UserGroupMemberRow) (userId : Nat) :
    List UserGroupMemberRow :=
  members.filter (fun m => m.userId == userId && m.status == 1)

/-- `UserGroupPermissionDAO.GetGroupPermissions`: permission rows of one
group. -/
def getGroupPermissions (gperms : List UserGroupPermissionRow) (groupId : Nat) :
    List UserGroupPermissionRow :=
  gperms.filter (fun p => p.userGroupId == groupId)

/-- `PermissionService.getUserGroupPermissions`: concatenation of the
permissions of every group the user is a normal-status member of (the
service re-checks `member.Status == 1` on rows the member DAO already
filtered). -/
def getUserGroupPermissions (members : List UserGroupMemberRow)
    (gperms : List UserGroupPermissionRow) (userId : Nat) :
    List UserGroupPermissionRow :=
  (getUserGroups members userId).foldl
    (fun acc m => if m.status == 1 then acc ++ getGroupPermissions gperms m.userGroupId else acc)
    []

/-- `PermissionService.hasBasePermission`: hardcoded per-role gate ahead
of the table lookups — superadmin everything, admin everything except
delete, vip and user only read, guest and unknown roles nothing. -/
def hasBasePermission (role operation : String) : Bool :=
  if role == "superadmin" then true
  else if role == "admin" then operation != "delete"
  else if role == "vip" || role == "user" then operation == "read"
  else false

/-- `PermissionService.checkResourceScope`: `all`, `own` and `system` are
all accepted without checking ownership; anything else is rejected. -/
def checkResourceScope (scope : String) : Bool :=
  if scope == "all" then true
  else if scope == "own" then true
  else if scope == "system" then true
  else false

/-- `PermissionService.matchPermission`: overlay row matches the request
when resource type, operation set and scope all pass. -/
def matchPermission (p : UserPermissionRow) (resourceType operation : String) : Bool :=
  p.resourceType == resourceType && containsOperation p.operations operation &&
    checkResourceScope p.resourceScope

/-- `PermissionService.matchPermissionFromGroup`: the same test on a
group-permission row. -/
def matchPermissionFromGroup (p : UserGroupPermissionRow)
    (resourceType operation : String) : Bool :=
  p.resourceType == resourceType && containsOperation p.operations operation &&
    checkResourceScope p.resourceScope

/-- `PermissionService.checkPermissions`: the first matching special
(overlay) entry decides via its `IsGrant` value; only if none matches are
the group permissions consulted. -/
def checkPermissions (groupPermissions : List UserGroupPermissionRow)
    (specialPermissions : List UserPermissionRow)
    (resourceType operation : String) : Bool :=
  match specialPermissions.find? (fun p => matchPermission p resourceType operation) with
  | some p => p.isGrant
  | none =>
      groupPermissions.any (fun p => matchPermissionFromGroup p resourceType operation)

/-- `PermissionService.removeDuplicates`: deduplicate keeping first
occurrences, then comma-join. -/
def removeDuplicates (items : List String) : String :=
  String.intercalate ","
    (items.foldl (fun acc s => if acc.contains s then acc else acc ++ [s]) [])

/-- `PermissionService.getAllowedOperations`.  The Go loops return
`"all"` as soon as any group entry, or any granting special entry, has
operation set `"all"`; this is expressed here by two `any` tests ahead of
the accumulation, which yields the same string. -/
def getAllowedOperations (role : String)
    (groupPermissions : List UserGroupPermissionRow)
    (specialPermissions : List UserPermissionRow) : String :=
  if role == "superadmin" then "all"
  else if groupPermissions.any (fun p => p.operations == "all") then "all"
  else if specialPermissions.any (fun p => p.isGrant && p.operations == "all") then "all"
  else
    let base : List String :=
      if role == "admin" then ["read", "write"]
      else if role == "vip" || role == "user" then ["read"]
      else []
    removeDuplicates
      (base ++
        groupPermissions.foldl (fun acc p => acc ++ splitOnComma p.operations) [] ++
        specialPermissions.foldl
          (fun acc p => if p.isGrant then acc ++ splitOnComma p.operations else acc) [])

/-- Result shape of `PermissionService.CheckPermission`
(`model.PermissionCheckResult`); a field left out of a Go struct literal
is its zero value `""`. -/
structure TagCheckResult where
  hasPermission : Bool
  reason : String
  userRole : String
  allowedOps : String
deriving Repr, DecidableEq

/-- `PermissionService.CheckPermission`: missing user denies as guest;
disabled user denies; the `IsSuperAdmin` flag allows unconditionally;
then the `hasBasePermission` role gate runs, and only past it are group
and active special permissions fetched and combined by
`checkPermissions`. -/
def checkPermissionTag (users : List User) (members : List UserGroupMemberRow)
    (gperms : List UserGroupPermissionRow) (uperms : List UserPermissionRow)
    (now : Nat) (userId : Nat) (resourceType operation : String) : TagCheckResult :=
  match users.find? (fun u => u.id == userId) with
  | none => ⟨false, "用户不存在", "guest", ""⟩
  | some user =>
      if user.status != 1 then ⟨false, "用户已被禁用", user.role, ""⟩
      else if user.isSuperAdmin then ⟨true, "超级管理员拥有所有权限", "superadmin", "all"⟩
      else if !hasBasePermission user.role operation then
        ⟨false, "角色权限不足", user.role, ""⟩
      else
        let groupPermissions := getUserGroupPermissions members gperms user.id
        let specialPermissions := getActiveUserPermissions uperms now user.id
        if checkPermissions groupPermissions specialPermissions resourceType operation then
          ⟨true, "权限验证通过", user.role,
            getAllowedOperations user.role groupPermissions specialPermissions⟩
        else ⟨false, "权限不足", user.role, ""⟩

/-- `UserPermissionDAO.GrantPermission`: insert an overlay row with
`is_grant = true` and the given expiration. -/
def grantPermission (uperms : List UserPermissionRow) (userId permissionTagId : Nat)
    (operations resourceType resourceScope : String) (expiredAt : Nat) :
    List UserPermissionRow :=
  uperms ++ [⟨userId, permissionTagId, operations, resourceType, resourceScope,
    true, expiredAt, false⟩]

/-- Soft-delete the first row satisfying the predicate (gorm `GetOne`
returns the first row by primary key; `Delete` by its id sets the
soft-delete mark). -/
def softDeleteFirst (pred : UserPermissionRow → Bool) :
    List UserPermissionRow → List UserPermissionRow
  | [] => []
  | p :: ps =>
      if pred p then { p with deleted := true } :: ps
      else p :: softDeleteFirst pred ps

/-- `UserPermissionDAO.RevokePermission`: look up the first live row of
(user, permission tag) and soft-delete it; error when none exists. -/
def revokePermission (uperms : List UserPermissionRow) (userId permissionTagId : Nat) :
    Except String (List UserPermissionRow) :=
  match uperms.find? (fun p =>
      !p.deleted && p.userId == userId && p.permissionTagId == permissionTagId) with
  | none => Except.error "记录不存在"
  | some _ =>
      Except.ok (softDeleteFirst
        (fun p => !p.deleted && p.userId == userId && p.permissionTagId == permissionTagId)
        uperms)

/-- One administrative action on the `user_roles` table. -/
inductive RoleOp where
  | set (userId : Nat) (role : String)
  | grantTemp (userId : Nat) (role : String) (now duration : Nat)
  | revoke (userId : Nat)

/-- Apply one action; a failed insert (duplicate key) leaves the table
unchanged. -/
def applyRoleOp (roles : List UserRoleRow) : RoleOp → List UserRoleRow
  | .set userId role =>
      match setUserRoleDao roles userId role with
      | .ok rs => rs
      | .error _ => roles
  | .grantTemp userId role now duration =>
      match grantTemporaryRole roles userId role now duration with
      | .ok rs => rs
      | .error _ => roles
  | .revoke userId => revokeRole roles userId

/-- State reached from the empty table by a sequence of actions. -/
def applyRoleOps (ops : List RoleOp) : List UserRoleRow :=
  ops.foldl applyRoleOp []

/-- Rows of one user (any activity state). -/
def rowsFor (roles : List UserRoleRow) (userId : Nat) : List UserRoleRow :=
  roles.filter (fun r => r.userId == userId)

/-- Active rows of one user. -/
def activeRowsFor (roles : List UserRoleRow) (userId : Nat) : List UserRoleRow :=
  roles.filter (fun r => r.userId == userId && r.isActive)

/-! Helper lemmas about the `user_roles` state machine. -/

lemma length_rowsFor_map (f : UserRoleRow → UserRoleRow)
    (hf : ∀ r, (f r).userId = r.userId) (roles : List UserRoleRow) (userId : Nat) :
    (rowsFor (roles.map f) userId).length = (rowsFor roles userId).length := by
  induction roles with
  | nil => rfl
  | cons r rs ih =>
      simp only [rowsFor, List.map_cons, List.filter_cons] at ih ⊢
      rw [hf r]
      by_cases h : (r.userId == userId) = true
      · simp [h, ih]
      · simp [h, ih]

lemma rowsFor_createUserRole_ok (roles : List UserRoleRow) (r : UserRoleRow)
    (rs : List UserRoleRow) (hok : createUserRole roles r = Except.ok rs)
    (hinv : ∀ userId, (rowsFor roles userId).length ≤ 1) :
    ∀ userId, (rowsFor rs userId).length ≤ 1 := by
  unfold createUserRole at hok
  by_cases hany : roles.any (fun x => x.userId == r.userId) = true
  · simp [hany] at hok
  · simp only [hany, Bool.false_eq_true, if_false, Except.ok.injEq] at hok
    subst hok
    intro userId
    simp only [rowsFor, List.filter_append]
    by_cases hid : (r.userId == userId) = true
    · have hempty : roles.filter (fun x => x.userId == userId) = [] := by
        rw [List.filter_eq_nil_iff]
        intro x hx
        have hx2 := (List.any_eq_false (l := roles)).mp
          (Bool.eq_false_iff.mpr (fun hc => hany hc)) x hx
        simp only [beq_iff_eq] at hx2 ⊢
        have hid2 : r.userId = userId := by simpa [beq_iff_eq] using hid
        omega
      rw [hempty]
      simp [hid]
    · have hnil : List.filter (fun x => x.userId == userId) [r] = [] := by
        simp [hid]
      rw [hnil, List.append_nil]
      simpa [rowsFor] using hinv userId

lemma rowsFor_applyRoleOp (roles : List UserRoleRow) (op : RoleOp)
    (hinv : ∀ userId, (rowsFor roles userId).length ≤ 1) :
    ∀ userId, (rowsFor (applyRoleOp roles op) userId).length ≤ 1 := by
  cases op with
  | set uid role =>
      simp only [applyRoleOp, setUserRoleDao]
      cases hfind : roles.find? (fun r => r.userId == uid && r.isActive) with
      | none =>
          cases hc : createUserRole roles ⟨uid, role, true, 0⟩ with
          | ok rs => exact rowsFor_createUserRole_ok roles _ rs hc hinv
          | error e => exact hinv
      | some r0 =>
          intro userId
          rw [length_rowsFor_map]
          · exact hinv userId
          · intro r
            by_cases h : (r.userId == uid && r.isActive) = true <;> simp [h]
  | grantTemp uid role now duration =>
      simp only [applyRoleOp, grantTemporaryRole]
      cases hc : createUserRole roles ⟨uid, role, true, now + duration⟩ with
      | ok rs => exact rowsFor_createUserRole_ok roles _ rs hc hinv
      | error e => exact hinv
  | revoke uid =>
      simp only [applyRoleOp, revokeRole]
      intro userId
      rw [length_rowsFor_map]
      · exact hinv userId
      · intro r
        by_cases h : (r.userId == uid) = true <;> simp [h]

lemma rowsFor_foldl (ops : List RoleOp) :
    ∀ (roles : List UserRoleRow), (∀ userId, (rowsFor roles userId).length ≤ 1) →
      ∀ userId, (rowsFor (ops.foldl applyRoleOp roles) userId).length ≤ 1 := by
  induction ops with
  | nil => intro roles h; exact h
  | cons op ops ih =>
      intro roles h
      exact ih _ (rowsFor_applyRoleOp roles op h)

lemma length_activeRowsFor_le (roles : List UserRoleRow) (userId : Nat) :
    (activeRowsFor roles userId).length ≤ (rowsFor roles userId).length := by
  induction roles with
  | nil => simp [activeRowsFor, rowsFor]
  | cons r rs ih =>
      simp only [activeRowsFor, rowsFor, List.filter_cons] at ih ⊢
      by_cases h1 : (r.userId == userId) = true
      · by_cases h2 : r.isActive = true
        · simp only [h1, h2, Bool.and_self, if_true, List.length_cons]
          omega
        · simp only [h1, h2, Bool.and_false, Bool.true_and, Bool.false_eq_true, if_false,
            if_true, List.length_cons]
          omega
      · simp only [h1, Bool.false_and, Bool.false_eq_true, if_false]
        exact ih

/-! Helper lemmas for the idempotence of the default seeding. -/

lemma checkPermissionExists_append (perms : List RolePermissionRow)
    (q p : RolePermissionRow)
    (h : checkPermissionExists perms p.role p.resourceType = true) :
    checkPermissionExists (perms ++ [q]) p.role p.resourceType = true := by
  unfold checkPermissionExists at h ⊢
  rw [List.any_append, h, Bool.true_or]

lemma checkPermissionExists_seedStep (perms : List RolePermissionRow)
    (q p : RolePermissionRow)
    (h : checkPermissionExists perms p.role p.resourceType = true) :
    checkPermissionExists (seedStep perms q) p.role p.resourceType = true := by
  unfold seedStep
  by_cases hq : checkPermissionExists perms q.role q.resourceType = true
  · simp [hq, h]
  · simp only [hq, Bool.false_eq_true, if_false]
    exact checkPermissionExists_append perms q p h

lemma checkPermissionExists_seedStep_self (perms : List RolePermissionRow)
    (p : RolePermissionRow) :
    checkPermissionExists (seedStep perms p) p.role p.resourceType = true := by
  unfold seedStep
  by_cases h : checkPermissionExists perms p.role p.resourceType = true
  · simp [h]
  · simp only [h, Bool.false_eq_true, if_false]
    simp [checkPermissionExists, List.any_append]

lemma foldl_seedStep_mono (ds : List RolePermissionRow) :
    ∀ (perms : List RolePermissionRow) (p : RolePermissionRow),
      checkPermissionExists perms p.role p.resourceType = true →
      checkPermissionExists (ds.foldl seedStep perms) p.role p.resourceType = true := by
  induction ds with
  | nil => intro _ _ h; exact h
  | cons d ds ih =>
      intro perms p h
      exact ih _ _ (checkPermissionExists_seedStep perms d p h)

lemma foldl_seedStep_all_exist (ds : List RolePermissionRow) :
    ∀ (perms : List RolePermissionRow) (p : RolePermissionRow), p ∈ ds →
      checkPermissionExists (ds.foldl seedStep perms) p.role p.resourceType = true := by
  induction ds with
  | nil => intro _ p h; cases h
  | cons d ds ih =>
      intro perms p hp
      cases hp with
      | head =>
          exact foldl_seedStep_mono ds _ _ (checkPermissionExists_seedStep_self perms d)
      | tail _ hmem => exact ih (seedStep perms d) p hmem

lemma foldl_seedStep_noop (ds : List RolePermissionRow) :
    ∀ (perms : List RolePermissionRow),
      (∀ p ∈ ds, checkPermissionExists perms p.role p.resourceType = true) →
      ds.foldl seedStep perms = perms := by
  induction ds with
  | nil => intro _ _; rfl
  | cons d ds ih =>
      intro perms h
      have hd : seedStep perms d = perms := by
        unfold seedStep
        simp [h d (List.mem_cons_self d ds)]
      rw [List.foldl_cons, hd]
      exact ih perms (fun p hp => h p (List.mem_cons_of_mem d hp))

/-! The claims. -/

/-- C1 (code evaluated at the failing input): a live, unexpired overlay
row with `isGrant = false` covering content/read is dropped by
`GetActiveUserPermissions` (its query filters `is_grant = true`), so for
an active `user`-role account whose group permission allows content/read
the evaluation returns allow — the deny overlay never short-circuits the
outcome, contrary to the documented `IsGrant = false` revocation
semantics. -/
theorem c1_deny_overlay_is_ignored :
    getActiveUserPermissions [⟨1, 5, "read", "content", "all", false, 999999, false⟩] 1000 1
      = [] ∧
    (checkPermissionTag [⟨1, 1, "user", false⟩] [⟨1, 10, 1⟩]
        [⟨10, 5, "read", "content", "all"⟩]
        [⟨1, 5, "read", "content", "all", false, 999999, false⟩]
        1000 1 "content" "read").hasPermission = true := by
  constructor
  · rfl
  · rfl

/-- C2 (counterexample): for an active `user`-role account, after
`GrantPermission(99, content, delete, all, no expiration)` the tag-based
`CheckPermission` still denies content/delete — `hasBasePermission`
rejects the operation for the role before the overlay is ever
consulted. -/
theorem c2_counterexample :
    (checkPermissionTag [⟨99, 1, "user", false⟩] [] []
        (grantPermission [] 99 1 "delete" "content" "all" 0)
        1000 99 "content" "delete").hasPermission = false := by
  rfl

/-- C2 (amended): an overlay grant is gated by the per-role base check —
whenever `hasBasePermission role operation` is false for an active,
non-superadmin user, the tag evaluator denies regardless of overlay and
group state; when the gate passes (role `user`, operation `read`), an
active overlay grant yields allow and soft-deleting it via
`RevokePermission` makes the decision fall back to deny when no group
permission matches. -/
theorem c2_overlay_gated_by_base_role :
    (∀ (users : List User) (members : List UserGroupMemberRow)
        (gperms : List UserGroupPermissionRow) (uperms : List UserPermissionRow)
        (now userId : Nat) (resourceType operation : String) (u : User),
        users.find? (fun x => x.id == userId) = some u →
        u.status = 1 → u.isSuperAdmin = false →
        hasBasePermission u.role operation = false →
        (checkPermissionTag users members gperms uperms now userId
          resourceType operation).hasPermission = false) ∧
    ((checkPermissionTag [⟨99, 1, "user", false⟩] [] []
        (grantPermission [] 99 1 "read" "content" "all" 99999)
        1000 99 "content" "read").hasPermission = true ∧
      revokePermission (grantPermission [] 99 1 "read" "content" "all" 99999) 99 1 =
        Except.ok [⟨99, 1, "read", "content", "all", true, 99999, true⟩] ∧
      (checkPermissionTag [⟨99, 1, "user", false⟩] [] []
        [⟨99, 1, "read", "content", "all", true, 99999, true⟩]
        1000 99 "content" "read").hasPermission = false) := by
  constructor
  · intro users members gperms uperms now userId resourceType operation u
      hfind hstatus hsa hgate
    simp [checkPermissionTag, hfind, hstatus, hsa, hgate]
  · exact ⟨rfl, rfl, rfl⟩

/-- C2 (witness for the amended theorem): an overlay grant of delete for
an active `user`-role account is defeated by the base-role gate. -/
theorem c2_overlay_gated_by_base_role_witness :
    (checkPermissionTag [⟨99, 1, "user", false⟩] [] []
        (grantPermission [] 99 1 "delete" "content" "all" 99999)
        5 99 "content" "delete").hasPermission = false :=
  c2_overlay_gated_by_base_role.1 [⟨99, 1, "user", false⟩] [] []
    (grantPermission [] 99 1 "delete" "content" "all" 99999)
    5 99 "content" "delete" ⟨99, 1, "user", false⟩ rfl rfl rfl rfl

/-- C3 (code evaluated at the failing input): `GrantTemporaryRole(7, vip,
3600)` at time 1000 inserts an active row expiring at 4600, but
`GetUserRole` filters only on `user_id` and `is_active` and never
consults `expired_at` or a clock, so the row keeps resolving to `vip`
after any amount of time — the temporary role never falls back to
`guest`. -/
theorem c3_temporary_role_never_expires :
    grantTemporaryRole [] 7 "vip" 1000 3600 =
      Except.ok [⟨7, "vip", true, 4600⟩] ∧
    getUserRole [⟨7, "vip", true, 4600⟩] 7 = "vip" := by
  exact ⟨rfl, rfl⟩

/-- C4: superadmin bypasses the table lookup in both implementations —
the unified DAO allows every resource type and operation as soon as the
resolved role is `superadmin`, for any permission table including the
empty one, and the tag-based service allows unconditionally for an
active user flagged `IsSuperAdmin`. -/
theorem c4_superadmin_bypass :
    (∀ (roles : List UserRoleRow) (perms : List RolePermissionRow) (userId : Nat)
        (resourceType operation : String),
        getUserRole roles userId = "superadmin" →
        checkPermissionUnified roles perms userId resourceType operation = true) ∧
    (∀ (users : List User) (members : List UserGroupMemberRow)
        (gperms : List UserGroupPermissionRow) (uperms : List UserPermissionRow)
        (now userId : Nat) (resourceType operation : String) (u : User),
        users.find? (fun x => x.id == userId) = some u →
        u.status = 1 → u.isSuperAdmin = true →
        (checkPermissionTag users members gperms uperms now userId
          resourceType operation).hasPermission = true) := by
  constructor
  · intro roles perms userId resourceType operation h
    simp [checkPermissionUnified, h]
  · intro users members gperms uperms now userId resourceType operation u
      hfind hstatus hsa
    simp [checkPermissionTag, hfind, hstatus, hsa]

/-- C4 (witness): a superadmin-resolved user passes with an empty
permission table, and an active `IsSuperAdmin`-flagged user passes with
empty group and overlay tables. -/
theorem c4_superadmin_bypass_witness :
    checkPermissionUnified [⟨3, "superadmin", true, 0⟩] [] 3 "user" "delete" = true ∧
    (checkPermissionTag [⟨3, 1, "admin", true⟩] [] [] [] 0 3 "user" "delete").hasPermission
      = true :=
  ⟨c4_superadmin_bypass.1 [⟨3, "superadmin", true, 0⟩] [] 3 "user" "delete" rfl,
   c4_superadmin_bypass.2 [⟨3, 1, "admin", true⟩] [] [] [] 0 3 "user" "delete"
     ⟨3, 1, "admin", true⟩ rfl rfl rfl⟩

/-- C5 (counterexample): for a nonexistent user the simplified service
does not deny everything — resource type `content` with operation `read`
is allowed through `checkGuestPermission`. -/
theorem c5_counterexample :
    (checkPermissionSimplified [] [] [] 42 "content" "read").hasPermission = true := by
  rfl

/-- C5 (amended): when the requested user does not exist both services
return a normal result with role `guest` and a descriptive reason; the
tag-based service always denies, while the simplified service decides by
the hardcoded guest check — allow exactly for content/read, deny for
everything else. -/
theorem c5_missing_user_guest_handling :
    (∀ (users : List User) (roles : List UserRoleRow) (perms : List RolePermissionRow)
        (userId : Nat) (resourceType operation : String),
        users.find? (fun u => u.id == userId) = none →
        checkPermissionSimplified users roles perms userId resourceType operation =
          ⟨checkGuestPermission resourceType operation, "用户不存在，按游客权限处理", "guest"⟩) ∧
    (∀ (users : List User) (members : List UserGroupMemberRow)
        (gperms : List UserGroupPermissionRow) (uperms : List UserPermissionRow)
        (now userId : Nat) (resourceType operation : String),
        users.find? (fun u => u.id == userId) = none →
        checkPermissionTag users members gperms uperms now userId resourceType operation =
          ⟨false, "用户不存在", "guest", ""⟩) := by
  constructor
  · intro users roles perms userId resourceType operation h
    simp [checkPermissionSimplified, h]
  · intro users members gperms uperms now userId resourceType operation h
    simp [checkPermissionTag, h]

/-- C5 (witness for the amended theorem): with an empty user table both
services report role `guest`; the simplified one denies content/write. -/
theorem c5_missing_user_guest_handling_witness :
    checkPermissionSimplified [] [] [] 7 "content" "write" =
      ⟨checkGuestPermission "content" "write", "用户不存在，按游客权限处理", "guest"⟩ ∧
    checkPermissionTag [] [] [] [] 0 7 "content" "write" =
      ⟨false, "用户不存在", "guest", ""⟩ :=
  ⟨c5_missing_user_guest_handling.1 [] [] [] 7 "content" "write" rfl,
   c5_missing_user_guest_handling.2 [] [] [] [] 0 7 "content" "write" rfl⟩

/-- C6: from the empty table, every state reachable by `SetUserRole`,
`GrantTemporaryRole` and `RevokeRole` has at most one active
role-assignment row per user (Create honors the declared unique index on
`user_id`, `SetUserRole` updates the active row in place, and
`RevokeRole` only clears flags). -/
theorem c6_at_most_one_active_assignment :
    ∀ (ops : List RoleOp) (userId : Nat),
      (activeRowsFor (applyRoleOps ops) userId).length ≤ 1 := by
  intro ops userId
  have hinv := rowsFor_foldl ops [] (fun uid => by simp [rowsFor]) userId
  exact le_trans (length_activeRowsFor_le _ _) hinv

/-- C7 (counterexample): `GrantTemporaryRole` accepts a role parameter
but performs no registry validation — a role outside the fixed registry
is inserted successfully instead of failing with an invalid-role
error. -/
theorem c7_counterexample :
    isValidRole "wizard" = false ∧
    grantTemporaryRole [] 7 "wizard" 1000 3600 =
      Except.ok [⟨7, "wizard", true, 4600⟩] := by
  exact ⟨rfl, rfl⟩

/-- C7 (amended): the service-level mutators `SetUserRole` and
`AddRolePermission` fail with the invalid-role error exactly for roles
outside the fixed registry and delegate to the DAO otherwise;
`GrantTemporaryRole` has no service wrapper and inserts its row for any
role string whatsoever (when the user has no prior row); the read path
`GetUserRole` never raises an invalid-role error and defaults a user with
no active assignment to `guest`. -/
theorem c7_role_validation_coverage :
    (∀ (roles : List UserRoleRow) (userId : Nat) (role : String),
        isValidRole role = false →
        setUserRoleService roles userId role =
          Except.error ("无效的用户角色: " ++ role)) ∧
    (∀ (perms : List RolePermissionRow) (role resourceType operations scope : String),
        isValidRole role = false →
        addRolePermissionService perms role resourceType operations scope =
          Except.error ("无效的用户角色: " ++ role)) ∧
    (∀ (roles : List UserRoleRow) (userId : Nat) (role : String),
        isValidRole role = true →
        setUserRoleService roles userId role = setUserRoleDao roles userId role) ∧
    (∀ (perms : List RolePermissionRow) (role resourceType operations scope : String),
        isValidRole role = true →
        addRolePermissionService perms role resourceType operations scope =
          Except.ok (addRolePermissionDao perms role resourceType operations scope)) ∧
    (∀ (roles : List UserRoleRow) (userId now duration : Nat) (role : String),
        roles.any (fun x => x.userId == userId) = false →
        grantTemporaryRole roles userId role now duration =
          Except.ok (roles ++ [⟨userId, role, true, now + duration⟩])) ∧
    (∀ (roles : List UserRoleRow) (userId : Nat),
        roles.find? (fun r => r.userId == userId && r.isActive) = none →
        getUserRole roles userId = "guest") := by
  refine ⟨?_, ?_, ?_, ?_, ?_, ?_⟩
  · intro roles userId role h
    simp [setUserRoleService, h]
  · intro perms role resourceType operations scope h
    simp [addRolePermissionService, h]
  · intro roles userId role h
    simp [setUserRoleService, h]
  · intro perms role resourceType operations scope h
    simp [addRolePermissionService, h]
  · intro roles userId now duration role h
    simp [grantTemporaryRole, createUserRole, h]
  · intro roles userId h
    simp [getUserRole, h]

/-- C7 (witness for the amended theorem): concrete instances of all six
conjuncts. -/
theorem c7_role_validation_coverage_witness :
    setUserRoleService [] 1 "wizard" = Except.error ("无效的用户角色: " ++ "wizard") ∧
    addRolePermissionService [] "wizard" "content" "read" "all" =
      Except.error ("无效的用户角色: " ++ "wizard") ∧
    setUserRoleService [] 1 "vip" = setUserRoleDao [] 1 "vip" ∧
    addRolePermissionService [] "vip" "content" "read" "all" =
      Except.ok (addRolePermissionDao [] "vip" "content" "read" "all") ∧
    grantTemporaryRole [] 8 "anything" 10 20 =
      Except.ok ([] ++ [⟨8, "anything", true, 10 + 20⟩]) ∧
    getUserRole [⟨2, "vip", false, 0⟩] 2 = "guest" :=
  ⟨c7_role_validation_coverage.1 [] 1 "wizard" rfl,
   c7_role_validation_coverage.2.1 [] "wizard" "content" "read" "all" rfl,
   c7_role_validation_coverage.2.2.1 [] 1 "vip" rfl,
   c7_role_validation_coverage.2.2.2.1 [] "vip" "content" "read" "all" rfl,
   c7_role_validation_coverage.2.2.2.2.1 [] 8 10 20 "anything" rfl,
   c7_role_validation_coverage.2.2.2.2.2 [⟨2, "vip", false, 0⟩] 2 rfl⟩

/-- C8: `InitializeDefaultPermissions` is idempotent — from every
starting permission table, running the seeding twice produces exactly
the table produced by running it once, because each default entry is
inserted only when no row with its (role, resourceType) pair exists. -/
theorem c8_init_idempotent :
    ∀ perms : List RolePermissionRow,
      initDefaultPermissions (initDefaultPermissions perms) =
        initDefaultPermissions perms := by
  intro perms
  unfold initDefaultPermissions
  exact foldl_seedStep_noop defaultPermissions _
    (fun p hp => foldl_seedStep_all_exist defaultPermissions perms p hp)

/-- C9: when the resolved role is not `superadmin` and no live permission
entry for (role, resourceType) or (role, `*`) contains the requested
operation, the simplified service returns a normal deny with the reason
string for insufficient permission and the resolved role — it does not
error. -/
theorem c9_no_matching_entry_denies
    (users : List User) (roles : List UserRoleRow) (perms : List RolePermissionRow)
    (userId : Nat) (resourceType operation : String) (u : User)
    (hfind : users.find? (fun x => x.id == userId) = some u)
    (hstatus : u.status = 1)
    (hrole : getUserRole roles userId ≠ "superadmin")
    (hnone : ∀ p ∈ perms, p.role = getUserRole roles userId →
        p.resourceType = resourceType ∨ p.resourceType = "*" →
        containsOperation p.operations operation = false) :
    checkPermissionSimplified users roles perms userId resourceType operation =
      ⟨false, "权限不足", getUserRole roles userId⟩ := by
  have hunified :
      checkPermissionUnified roles perms userId resourceType operation = false := by
    have hbeq : (getUserRole roles userId == "superadmin") = false := by
      simpa using hrole
    simp only [checkPermissionUnified, hbeq, Bool.false_eq_true, if_false]
    rw [List.any_eq_false]
    intro p hp
    rw [List.mem_filter] at hp
    obtain ⟨hpm, hcond⟩ := hp
    simp only [Bool.and_eq_true, Bool.or_eq_true, beq_iff_eq] at hcond
    simpa using hnone p hpm hcond.1 hcond.2
  simp [checkPermissionSimplified, hfind, hstatus, hunified]

/-- C9 (witness): with only the default seed table, a guest-resolved
active user requesting admin/write is denied with the insufficient
permission reason. -/
theorem c9_no_matching_entry_denies_witness :
    checkPermissionSimplified [⟨5, 1, "user", false⟩] [] (initDefaultPermissions [])
      5 "admin" "write" = ⟨false, "权限不足", getUserRole [] 5⟩ :=
  c9_no_matching_entry_denies [⟨5, 1, "user", false⟩] [] (initDefaultPermissions [])
    5 "admin" "write" ⟨5, 1, "user", false⟩ rfl rfl (by decide) (by decide)

/-- C10 (counterexample): over corresponding states — the same active
user record resolving to `guest`, the default seed on the simplified
side, empty group/tag tables and empty overlay on the tag side — the two
evaluators disagree on content/read: the simplified table-driven
evaluator allows (guest seed row content/read) while the tag-based
evaluator denies at the hardcoded `hasBasePermission` gate. -/
theorem c10_counterexample :
    (checkPermissionSimplified [⟨42, 1, "guest", false⟩] [] (initDefaultPermissions [])
        42 "content" "read").hasPermission = true ∧
    (checkPermissionTag [⟨42, 1, "guest", false⟩] [] [] [] 0
        42 "content" "read").hasPermission = false := by
  exact ⟨rfl, rfl⟩

/-- C10 (amended): the two evaluators do not embody the same decision
mechanism in general; they do agree on the user-resolution layer for
disabled accounts — for any states containing the same disabled user
record, both return deny with the disabled-user reason and that user's
role. -/
theorem c10_agreement_on_disabled_users :
    ∀ (users : List User) (roles : List UserRoleRow) (perms : List RolePermissionRow)
      (members : List UserGroupMemberRow) (gperms : List UserGroupPermissionRow)
      (uperms : List UserPermissionRow) (now userId : Nat)
      (resourceType operation : String) (u : User),
      users.find? (fun x => x.id == userId) = some u → u.status ≠ 1 →
      checkPermissionSimplified users roles perms userId resourceType operation =
        ⟨false, "用户已被禁用", u.role⟩ ∧
      checkPermissionTag users members gperms uperms now userId resourceType operation =
        ⟨false, "用户已被禁用", u.role, ""⟩ := by
  intro users roles perms members gperms uperms now userId resourceType operation u
    hfind hstatus
  have hb : (u.status != 1) = true := by
    simpa using hstatus
  constructor
  · simp [checkPermissionSimplified, hfind, hb]
  · simp [checkPermissionTag, hfind, hb]

/-- C10 (witness for the amended theorem): a disabled admin user is
denied identically by both services. -/
theorem c10_agreement_on_disabled_users_witness :
    checkPermissionSimplified [⟨9, 2, "admin", false⟩] [] [] 9 "content" "read" =
      ⟨false, "用户已被禁用", "admin"⟩ ∧
    checkPermissionTag [⟨9, 2, "admin", false⟩] [] [] [] 0 9 "content" "read" =
      ⟨false, "用户已被禁用", "admin", ""⟩ :=
  c10_agreement_on_disabled_users [⟨9, 2, "admin", false⟩] [] [] [] [] [] 0 9
    "content" "read" ⟨9, 2, "admin", false⟩ rfl (by decide)

end Charlotte
